import Mathlib

/-!
Verification of the secret-lifecycle controller in
`src/lambda_handler.py` of merabytes/secrets-lambda.

The vault (Azure KeyVault behind `VaultManager`) is modelled per handle as a
record of the three optional keys the controller addresses: the payload key
(`handle`), the metadata key (`handle-metadata`) and the expiry key
(`handle-expires`).  Ciphertexts are the free algebra of the symmetric cipher
(`acido.utils.crypto_utils`), so `decrypt_secret (encrypt_secret x k) k = x`
holds by construction and decryption fails on a wrong key or a non-ciphertext
input, as the authenticated cipher in the library does (it raises
`ValueError`).  The `is_encrypted` heuristic is an external primitive and is
carried as a function parameter `isEnc`.  Absent string fields of the lambda
event are modelled as the empty string: every access in the source guards the
field with a Python truthiness test, which identifies `None` and `""`.
-/

namespace SecretsLambda

/-- Symbolic ciphertexts: the free algebra generated by the symmetric cipher.
`plain s` is a raw string value; `enc v k` is the encryption of `v` under key
`k`. -/
inductive SVal where
  | plain (s : String)
  | enc (v : SVal) (k : String)
deriving DecidableEq, Repr

/-- Model of `crypto_utils.encrypt_secret`. -/
def encrypt_secret (v : SVal) (k : String) : SVal := SVal.enc v k

/-- Model of `crypto_utils.decrypt_secret`: succeeds exactly on a ciphertext
encrypted under the same key; `none` models the `ValueError` raised on a wrong
key or corrupted input (integrity failure of the authenticated cipher). -/
def decrypt_secret : SVal → String → Option SVal
  | SVal.enc v k, k2 => if k2 = k then some v else none
  | SVal.plain _, _ => none

/-- The observable responses built by `lambda_handler` through
`build_response` / `build_error_response`, abstracted to their distinguishing
content. -/
inductive Resp where
  | missingSecret
  | missingUuid
  | invalidExpiresAt
  | expiresNotFuture
  | created (expiresAt : Option Int)
  | notFound
  | expired (expiredAt : Int)
  | passwordRequired
  | decryptionFailed
  | systemDecryptionFailed
  | systemEncryptionFailed
  | retrieved (secret : SVal)
  | checked (requiresPassword : Bool) (expiresAt : Option Int)
  | storeFault
  | unhandledOverflow
deriving DecidableEq, Repr

/-- HTTP status code of each response, as produced by the source. -/
def Resp.status : Resp → Nat
  | .missingSecret => 400
  | .missingUuid => 400
  | .invalidExpiresAt => 400
  | .expiresNotFuture => 400
  | .created _ => 201
  | .notFound => 404
  | .expired _ => 410
  | .passwordRequired => 400
  | .decryptionFailed => 400
  | .systemDecryptionFailed => 500
  | .systemEncryptionFailed => 500
  | .retrieved _ => 200
  | .checked _ _ => 200
  | .storeFault => 500
  | .unhandledOverflow => 500

/-- The three vault entries addressed by one handle `h`: key `h` (payload),
key `h-metadata` (encoding tag) and key `h-expires` (expiry timestamp,
stored as a string).  `none` models an absent key. -/
structure Store where
  payload : Option SVal
  metadata : Option String
  expires : Option String
deriving DecidableEq, Repr

/-- Digits of a decimal numeral; `none` on the empty list or any non-digit
character. -/
def parseDigits (l : List Char) : Option Nat :=
  if l = [] then none
  else if l.all Char.isDigit then
    some (l.foldl (fun a c => a * 10 + (c.toNat - 48)) 0)
  else none

/-- Model of Python `int` applied to a string: an optional sign followed by
decimal digits; `none` models the `ValueError`. -/
def parseInt (s : String) : Option Int :=
  match s.data with
  | '-' :: rest => (parseDigits rest).map (fun n => -(n : Int))
  | '+' :: rest => (parseDigits rest).map (fun n => (n : Int))
  | l => (parseDigits l).map (fun n => (n : Int))

/-- Range of UNIX timestamps accepted by `datetime.fromtimestamp(_, tz=utc)`
(year 1 to year 9999); outside it the call raises. -/
def tsRepresentable (n : Int) : Bool :=
  decide (-62135596800 ≤ n) && decide (n ≤ 253402300799)

/-- Range of integers that fit a signed 64-bit `time_t`.  For a timestamp
inside this range but outside `tsRepresentable`, `fromtimestamp` raises
`ValueError` or `OSError`, both caught by `_validate_expiration_time`; for one
outside it, the conversion raises `OverflowError`, which the clause
`except (ValueError, TypeError, OSError)` does not catch, so the exception
escapes to the top-level handler of `lambda_handler`. -/
def fitsTimeT (n : Int) : Bool :=
  decide (-9223372036854775808 ≤ n) && decide (n ≤ 9223372036854775807)

/-- Model of `_encrypt_with_secret_key`: encrypts under the `SECRET_KEY`
environment value; `none` models the `ValueError` raised when the variable is
unset or empty. -/
def encryptWithSecretKey (sysKey : Option String) (data : SVal) : Option SVal :=
  match sysKey with
  | some k => if k = "" then none else some (encrypt_secret data k)
  | none => none

/-- Model of `_decrypt_with_secret_key`: strips the system layer.  `none`
models both the missing-`SECRET_KEY` `ValueError` and a decryption failure;
the caller catches both as a bare `Exception` and cannot tell them apart. -/
def decryptWithSecretKey (sysKey : Option String) (data : SVal) : Option SVal :=
  match sysKey with
  | some k => if k = "" then none else decrypt_secret data k
  | none => none

/-- Model of `_delete_secret_and_metadata`: the payload delete comes first and
is not guarded, so the whole call fails (`none`) when the payload key is
absent, in which case nothing was deleted; the metadata and expires deletes
are each wrapped in `try/except` and always succeed. -/
def deleteSecretAndMetadata (s : Store) : Option Store :=
  match s.payload with
  | some _ => some { payload := none, metadata := none, expires := none }
  | none => none

/-- Model of `_check_expiration`.  Any failure inside the `try` block — a
missing expires key, an unparsable integer, `fromtimestamp` out of range, or a
failing delete — is swallowed by `except Exception: pass`, so the function
returns no error and the secret is treated as non-expiring. -/
def checkExpiration (now : Int) (s : Store) : Option Resp × Store :=
  match s.expires with
  | none => (none, s)
  | some estr =>
    match parseInt estr with
    | none => (none, s)
    | some n =>
      if tsRepresentable n then
        if n ≤ now then
          match deleteSecretAndMetadata s with
          | some s2 => (some (Resp.expired n), s2)
          | none => (none, s)
        else (none, s)
      else (none, s)

/-- The `expires_at` field of a create event: absent, a JSON integer, or a
string. -/
inductive ExpiresInput where
  | noneI
  | intI (n : Int)
  | strI (s : String)
deriving DecidableEq, Repr

/-- Python truthiness of the `expires_at` field: `None`, `0` and `""` are
falsy. -/
def ExpiresInput.falsy : ExpiresInput → Bool
  | .noneI => true
  | .intI n => n == 0
  | .strI s => s == ""

/-- Model of `int(expires_at)`: the identity on integers, a decimal parse on
strings; `none` models the `ValueError` / `TypeError`. -/
def ExpiresInput.toInt : ExpiresInput → Option Int
  | .noneI => none
  | .intI n => some n
  | .strI s => parseInt s

/-- Model of `_validate_expiration_time`, returning the pair
`(expiration_unix, error_response)`.  A falsy `expires_at` is passed through
as "no expiration" before any parsing happens.  Out-of-range timestamps split
in two: within 64-bit `time_t` the raised `ValueError`/`OSError` is caught and
becomes the 400 response, beyond it the raised `OverflowError` is not in the
caught tuple and escapes as `unhandledOverflow` (the top-level 500). -/
def validateExpirationTime (now : Int) (e : ExpiresInput) : Option Int × Option Resp :=
  if e.falsy then (none, none)
  else
    match e.toInt with
    | none => (none, some Resp.invalidExpiresAt)
    | some n =>
      if fitsTimeT n then
        if tsRepresentable n then
          if n ≤ now then (none, some Resp.expiresNotFuture)
          else (some n, none)
        else (none, some Resp.invalidExpiresAt)
      else (none, some Resp.unhandledOverflow)

/-- Model of `_encrypt_secret_layers`: the optional user-password layer first,
then the always-applied system-key layer, the tag recording whether the
password layer is present.  In the free cipher algebra user-password
encryption cannot fail, so only the system layer can produce an error. -/
def encryptSecretLayers (sysKey : Option String) (secretValue : SVal)
    (password : String) : Except Resp (SVal × String) :=
  let step : SVal × String :=
    if password = "" then (secretValue, "secret_key_encrypted")
    else (encrypt_secret secretValue password, "secret_key_password_encrypted")
  match encryptWithSecretKey sysKey step.1 with
  | some v => Except.ok (v, step.2)
  | none => Except.error Resp.systemEncryptionFailed

/-- Model of `_store_secret_with_metadata`: writes the payload and the tag,
and the expires key only when `expiration_unix` is truthy. -/
def storeSecretWithMetadata (secretValue : SVal) (encryptionType : String)
    (expirationUnix : Option Int) : Store :=
  { payload := some secretValue
    metadata := some encryptionType
    expires :=
      match expirationUnix with
      | some n => if n = 0 then none else some (toString n)
      | none => none }

/-- Model of `_handle_create_secret`.  The returned store is the record
written under the freshly generated handle; `none` when nothing was stored. -/
def handleCreateSecret (now : Int) (sysKey : Option String)
    (secretValue : String) (password : String) (expiresAt : ExpiresInput) :
    Resp × Option Store :=
  if secretValue = "" then (Resp.missingSecret, none)
  else
    match validateExpirationTime now expiresAt with
    | (_, some err) => (err, none)
    | (expirationUnix, none) =>
      match encryptSecretLayers sysKey (SVal.plain secretValue) password with
      | Except.error err => (err, none)
      | Except.ok (encryptedValue, encryptionType) =>
        (Resp.created
          (match expirationUnix with
           | some n => if n = 0 then none else some n
           | none => none),
         some (storeSecretWithMetadata encryptedValue encryptionType expirationUnix))

/-- Model of `_get_encryption_metadata`: the `try/except` turns an absent
metadata key into `None`. -/
def getEncryptionMetadata (s : Store) : Option String := s.metadata

/-- The password-layer removal block repeated in `_decrypt_secret_layers`: it
requires a truthy password, then decrypts, mapping the `ValueError` to the
400 decryption-failed response. -/
def passwordDecrypt (password : String) (v : SVal) : Except Resp SVal :=
  if password = "" then Except.error Resp.passwordRequired
  else
    match decrypt_secret v password with
    | some v2 => Except.ok v2
    | none => Except.error Resp.decryptionFailed

/-- Model of `_decrypt_secret_layers`, branching on the stored encryption-type
tag; `isEnc` stands for the `crypto_utils.is_encrypted` heuristic. -/
def decryptSecretLayers (sysKey : Option String) (isEnc : SVal → Bool)
    (secretValue : SVal) (encryptionType : Option String) (password : String) :
    Except Resp SVal :=
  if encryptionType = some "secret_key_encrypted" ∨
      encryptionType = some "secret_key_password_encrypted" then
    match decryptWithSecretKey sysKey secretValue with
    | none => Except.error Resp.systemDecryptionFailed
    | some v1 =>
      if encryptionType = some "secret_key_password_encrypted" then
        passwordDecrypt password v1
      else Except.ok v1
  else if encryptionType = some "encrypted" then
    passwordDecrypt password secretValue
  else if encryptionType = some "plaintext" then
    Except.ok secretValue
  else
    if isEnc secretValue then passwordDecrypt password secretValue
    else Except.ok secretValue

/-- Model of `_handle_retrieve_secret`, acting on the record of the requested
handle.  `storeFault` stands for an exception escaping to the top-level
handler (status 500); both branches producing it are unreachable in this
sequential model. -/
def handleRetrieveSecret (now : Int) (sysKey : Option String)
    (isEnc : SVal → Bool) (uuid : String) (password : String) (s : Store) :
    Resp × Store :=
  if uuid = "" then (Resp.missingUuid, s)
  else if s.payload.isNone then (Resp.notFound, s)
  else
    match checkExpiration now s with
    | (some err, s1) => (err, s1)
    | (none, s1) =>
      let encryptionType := getEncryptionMetadata s1
      match s1.payload with
      | none => (Resp.storeFault, s1)
      | some secretValue =>
        match decryptSecretLayers sysKey isEnc secretValue encryptionType password with
        | Except.error err => (err, s1)
        | Except.ok decryptedValue =>
          match deleteSecretAndMetadata s1 with
          | some s2 => (Resp.retrieved decryptedValue, s2)
          | none => (Resp.storeFault, s1)

/-- Model of `_get_expiration_info`: `none` when the expires key is absent or
its value is not an integer numeral. -/
def getExpirationInfo (s : Store) : Option Int :=
  match s.expires with
  | some estr => parseInt estr
  | none => none

/-- The heuristic fallback closing `_check_password_requirement`: reads the
raw payload and applies `is_encrypted`; a failing read yields `False`. -/
def heuristicFallback (isEnc : SVal → Bool) (s : Store) : Bool :=
  match s.payload with
  | some v => isEnc v
  | none => false

/-- Model of `_check_password_requirement`: tag membership tests first, then
the heuristic fallback for an absent or unrecognized tag. -/
def checkPasswordRequirement (isEnc : SVal → Bool) (s : Store) : Bool :=
  let metadataValue := getEncryptionMetadata s
  if metadataValue = some "encrypted" ∨
      metadataValue = some "secret_key_password_encrypted" then true
  else if metadataValue = some "plaintext" ∨
      metadataValue = some "secret_key_encrypted" then false
  else heuristicFallback isEnc s

/-- Model of `_handle_check_secret`, acting on the record of the requested
handle. -/
def handleCheckSecret (now : Int) (isEnc : SVal → Bool) (uuid : String)
    (s : Store) : Resp × Store :=
  if uuid = "" then (Resp.missingUuid, s)
  else if s.payload.isNone then (Resp.notFound, s)
  else
    match checkExpiration now s with
    | (some err, s1) => (err, s1)
    | (none, s1) =>
      let requiresPassword := checkPasswordRequirement isEnc s1
      let expiresAtUnix := getExpirationInfo s1
      (Resp.checked requiresPassword
        (match expiresAtUnix with
         | some n => if n = 0 then none else some n
         | none => none), s1)

/-- `_check_expiration` either silently passes, leaving the store untouched,
or reports expiry having deleted all three keys. -/
theorem checkExpiration_spec (now : Int) (s : Store) :
    checkExpiration now s = (none, s) ∨
    ∃ n, checkExpiration now s = (some (Resp.expired n), Store.mk none none none) := by
  obtain ⟨p, m, e⟩ := s
  cases e with
  | none => exact Or.inl rfl
  | some estr =>
    cases hp : parseInt estr with
    | none => left; simp [checkExpiration, hp]
    | some n =>
      by_cases hr : tsRepresentable n
      · by_cases hn : n ≤ now
        · cases p with
          | none => left; simp [checkExpiration, hp, hr, hn, deleteSecretAndMetadata]
          | some v =>
            right
            exact ⟨n, by simp [checkExpiration, hp, hr, hn, deleteSecretAndMetadata]⟩
        · left; simp [checkExpiration, hp, hr, hn]
      · left; simp [checkExpiration, hp, hr]

/-- When `_check_expiration` reports no error it has not touched the store. -/
theorem checkExpiration_of_fst_none (now : Int) (s : Store)
    (h : (checkExpiration now s).1 = none) : checkExpiration now s = (none, s) := by
  rcases checkExpiration_spec now s with hc | ⟨n, hc⟩
  · exact hc
  · rw [hc] at h
    exact absurd h (by simp)

/-- Shape of the record written by a successful create with no expiration. -/
theorem create_noExpiry_shape (now : Int) (sysKey : Option String)
    (p pw : String) (st : Store)
    (hc : handleCreateSecret now sysKey p pw ExpiresInput.noneI =
      (Resp.created none, some st)) :
    ∃ k, sysKey = some k ∧ k ≠ "" ∧ p ≠ "" ∧
      ((pw = "" ∧ st = Store.mk (some (SVal.enc (SVal.plain p) k))
          (some "secret_key_encrypted") none) ∨
       (pw ≠ "" ∧ st = Store.mk (some (SVal.enc (SVal.enc (SVal.plain p) pw) k))
          (some "secret_key_password_encrypted") none)) := by
  by_cases hp : p = ""
  · simp [handleCreateSecret, hp] at hc
  cases sysKey with
  | none =>
    simp [handleCreateSecret, hp, validateExpirationTime, ExpiresInput.falsy,
      encryptSecretLayers, encryptWithSecretKey] at hc
  | some k =>
    by_cases hk : k = ""
    · simp [handleCreateSecret, hp, validateExpirationTime, ExpiresInput.falsy,
        encryptSecretLayers, encryptWithSecretKey, hk] at hc
    refine ⟨k, rfl, hk, hp, ?_⟩
    by_cases hpw : pw = ""
    · left
      refine ⟨hpw, ?_⟩
      simp [handleCreateSecret, hp, validateExpirationTime, ExpiresInput.falsy,
        encryptSecretLayers, encryptWithSecretKey, encrypt_secret, hk, hpw,
        storeSecretWithMetadata] at hc
      exact hc.symm
    · right
      refine ⟨hpw, ?_⟩
      simp [handleCreateSecret, hp, validateExpirationTime, ExpiresInput.falsy,
        encryptSecretLayers, encryptWithSecretKey, encrypt_secret, hk, hpw,
        storeSecretWithMetadata] at hc
      exact hc.symm

/-- C1: sequential exactly-once — for a handle created without an expiration,
a successful retrieve from the freshly created record returns the original
plaintext and leaves all three keys deleted, after which every retrieve or
check on the same handle answers `NotFound` (status 404), because the payload
key consulted by the existence check of both operations is gone. -/
theorem claim_C1_sequential_exactly_once
    (now now1 : Int) (sysKey : Option String) (isEnc : SVal → Bool)
    (p pw uuid pw1 : String) (st st1 : Store) (v : SVal)
    (huuid : uuid ≠ "")
    (hc : handleCreateSecret now sysKey p pw ExpiresInput.noneI =
      (Resp.created none, some st))
    (hr : handleRetrieveSecret now1 sysKey isEnc uuid pw1 st =
      (Resp.retrieved v, st1)) :
    v = SVal.plain p ∧ st1 = Store.mk none none none ∧
    Resp.notFound.status = 404 ∧
    (∀ (n2 : Int) (k2 : Option String) (ie2 : SVal → Bool) (u2 pw2 : String),
      u2 ≠ "" →
      handleRetrieveSecret n2 k2 ie2 u2 pw2 st1 = (Resp.notFound, st1) ∧
      handleCheckSecret n2 ie2 u2 st1 = (Resp.notFound, st1)) := by
  obtain ⟨k, hsk, hk, hp, hshape⟩ := create_noExpiry_shape now sysKey p pw st hc
  subst hsk
  have hmain : v = SVal.plain p ∧ st1 = Store.mk none none none := by
    rcases hshape with ⟨hpw, hst⟩ | ⟨hpw, hst⟩
    · subst hst
      simp [handleRetrieveSecret, huuid, checkExpiration, getEncryptionMetadata,
        decryptSecretLayers, decryptWithSecretKey, decrypt_secret, hk,
        deleteSecretAndMetadata] at hr
      exact ⟨hr.1.symm, hr.2.symm⟩
    · subst hst
      by_cases h1 : pw1 = ""
      · simp [handleRetrieveSecret, huuid, checkExpiration, getEncryptionMetadata,
          decryptSecretLayers, decryptWithSecretKey, decrypt_secret, hk, h1,
          passwordDecrypt] at hr
      · by_cases h2 : pw1 = pw
        · simp [handleRetrieveSecret, huuid, checkExpiration, getEncryptionMetadata,
            decryptSecretLayers, decryptWithSecretKey, decrypt_secret, hk, h1, h2,
            hpw, passwordDecrypt, deleteSecretAndMetadata] at hr
          exact ⟨hr.1.symm, hr.2.symm⟩
        · simp [handleRetrieveSecret, huuid, checkExpiration, getEncryptionMetadata,
            decryptSecretLayers, decryptWithSecretKey, decrypt_secret, hk, h1, h2,
            passwordDecrypt] at hr
  refine ⟨hmain.1, hmain.2, rfl, ?_⟩
  intro n2 k2 ie2 u2 pw2 hu2
  rw [hmain.2]
  constructor
  · simp [handleRetrieveSecret, hu2]
  · simp [handleCheckSecret, hu2]

/-- C1 witness: a concrete create–retrieve run, after which both operations
answer `NotFound` on the emptied record. -/
theorem claim_C1_witness :
    SVal.plain "s" = SVal.plain "s" ∧
    Store.mk none none none = Store.mk none none none ∧
    Resp.notFound.status = 404 ∧
    (∀ (n2 : Int) (k2 : Option String) (ie2 : SVal → Bool) (u2 pw2 : String),
      u2 ≠ "" →
      handleRetrieveSecret n2 k2 ie2 u2 pw2 (Store.mk none none none) =
        (Resp.notFound, Store.mk none none none) ∧
      handleCheckSecret n2 ie2 u2 (Store.mk none none none) =
        (Resp.notFound, Store.mk none none none)) :=
  claim_C1_sequential_exactly_once 0 0 (some "k") (fun _ => false) "s" "" "u" ""
    (Store.mk (some (SVal.enc (SVal.plain "s") "k")) (some "secret_key_encrypted") none)
    (Store.mk none none none) (SVal.plain "s")
    (by decide) (by decide) (by decide)

/-- C2: round-trip — for every plaintext of a creatable (non-empty) secret and
every password, empty included, with the system key available, retrieving the
record written by create using the same password returns the original
plaintext. -/
theorem claim_C2_round_trip (now now1 : Int) (k p q uuid : String)
    (isEnc : SVal → Bool) (hk : k ≠ "") (hp : p ≠ "") (huuid : uuid ≠ "") :
    ∃ st, handleCreateSecret now (some k) p q ExpiresInput.noneI =
        (Resp.created none, some st) ∧
      (handleRetrieveSecret now1 (some k) isEnc uuid q st).1 =
        Resp.retrieved (SVal.plain p) := by
  by_cases hq : q = ""
  · refine ⟨Store.mk (some (SVal.enc (SVal.plain p) k))
      (some "secret_key_encrypted") none, ?_, ?_⟩
    · simp [handleCreateSecret, hp, validateExpirationTime, ExpiresInput.falsy,
        encryptSecretLayers, encryptWithSecretKey, encrypt_secret, hk, hq,
        storeSecretWithMetadata]
    · simp [handleRetrieveSecret, huuid, checkExpiration, getEncryptionMetadata,
        decryptSecretLayers, decryptWithSecretKey, decrypt_secret, hk,
        deleteSecretAndMetadata]
  · refine ⟨Store.mk (some (SVal.enc (SVal.enc (SVal.plain p) q) k))
      (some "secret_key_password_encrypted") none, ?_, ?_⟩
    · simp [handleCreateSecret, hp, validateExpirationTime, ExpiresInput.falsy,
        encryptSecretLayers, encryptWithSecretKey, encrypt_secret, hk, hq,
        storeSecretWithMetadata]
    · simp [handleRetrieveSecret, huuid, checkExpiration, getEncryptionMetadata,
        decryptSecretLayers, decryptWithSecretKey, decrypt_secret, hk, hq,
        passwordDecrypt, deleteSecretAndMetadata]

/-- C2 witness: a concrete round-trip with a non-empty password. -/
theorem claim_C2_witness :
    ∃ st, handleCreateSecret 0 (some "k") "s" "pw" ExpiresInput.noneI =
        (Resp.created none, some st) ∧
      (handleRetrieveSecret 0 (some "k") (fun _ => false) "u" "pw" st).1 =
        Resp.retrieved (SVal.plain "s") :=
  claim_C2_round_trip 0 0 "k" "s" "pw" "u" (fun _ => false)
    (by decide) (by decide) (by decide)

/-- C3: retry-safety of password failures — whenever `_handle_retrieve_secret`
answers `PasswordRequired` (password-protected layer present, no password
supplied) or `DecryptionError` (wrong password / integrity failure), the store
is returned unchanged: none of the payload, metadata or expires keys has been
deleted, so the handle remains retrievable. -/
theorem claim_C3_retry_safety (now : Int) (sysKey : Option String)
    (isEnc : SVal → Bool) (uuid pw : String) (s s1 : Store) (r : Resp)
    (h : handleRetrieveSecret now sysKey isEnc uuid pw s = (r, s1))
    (hr : r = Resp.passwordRequired ∨ r = Resp.decryptionFailed) : s1 = s := by
  by_cases hu : uuid = ""
  · simp [handleRetrieveSecret, hu] at h
    exact h.2.symm
  cases hpay : s.payload with
  | none =>
    simp [handleRetrieveSecret, hu, hpay] at h
    exact h.2.symm
  | some v =>
    rcases checkExpiration_spec now s with hce | ⟨n, hce⟩
    · cases hd : decryptSecretLayers sysKey isEnc v (getEncryptionMetadata s) pw with
      | error e =>
        simp [handleRetrieveSecret, hu, hpay, hce, hd] at h
        exact h.2.symm
      | ok dv =>
        simp [handleRetrieveSecret, hu, hpay, hce, hd, deleteSecretAndMetadata] at h
        rcases hr with hr | hr <;> rw [hr] at h <;> simp at h
    · simp [handleRetrieveSecret, hu, hpay, hce] at h
      rcases hr with hr | hr <;> rw [hr] at h <;> simp at h

/-- C3 witness: a password-protected record retrieved without a password
yields `PasswordRequired` and the store is unchanged. -/
theorem claim_C3_witness :
    handleRetrieveSecret 0 (some "k") (fun _ => false) "u" ""
        (Store.mk (some (SVal.enc (SVal.enc (SVal.plain "s") "pw") "k"))
          (some "secret_key_password_encrypted") none) =
      (Resp.passwordRequired,
        Store.mk (some (SVal.enc (SVal.enc (SVal.plain "s") "pw") "k"))
          (some "secret_key_password_encrypted") none) ∧
    Store.mk (some (SVal.enc (SVal.enc (SVal.plain "s") "pw") "k"))
        (some "secret_key_password_encrypted") none =
      Store.mk (some (SVal.enc (SVal.enc (SVal.plain "s") "pw") "k"))
        (some "secret_key_password_encrypted") none :=
  ⟨by decide,
   claim_C3_retry_safety 0 (some "k") (fun _ => false) "u" "" _ _
     Resp.passwordRequired (by decide) (Or.inl rfl)⟩

/-- C4: layer composition at create — the system-key layer is always applied
and is the outermost layer.  With a truthy password the stored payload is
`encrypt (encrypt secret password) systemKey` under the tag
`secret_key_password_encrypted` (the spec's `system_and_password`); otherwise
it is `encrypt secret systemKey` under `secret_key_encrypted` (the spec's
`system_only`). -/
theorem claim_C4_layer_composition (now : Int) (k p pw : String) (s : SVal)
    (hk : k ≠ "") (hpw : pw ≠ "") (hp : p ≠ "") :
    encryptSecretLayers (some k) s "" =
      Except.ok (encrypt_secret s k, "secret_key_encrypted") ∧
    encryptSecretLayers (some k) s pw =
      Except.ok (encrypt_secret (encrypt_secret s pw) k,
        "secret_key_password_encrypted") ∧
    handleCreateSecret now (some k) p pw ExpiresInput.noneI =
      (Resp.created none,
       some (Store.mk (some (SVal.enc (SVal.enc (SVal.plain p) pw) k))
         (some "secret_key_password_encrypted") none)) ∧
    handleCreateSecret now (some k) p "" ExpiresInput.noneI =
      (Resp.created none,
       some (Store.mk (some (SVal.enc (SVal.plain p) k))
         (some "secret_key_encrypted") none)) := by
  refine ⟨?_, ?_, ?_, ?_⟩
  · simp [encryptSecretLayers, encryptWithSecretKey, hk]
  · simp [encryptSecretLayers, encryptWithSecretKey, hk, hpw]
  · simp [handleCreateSecret, hp, validateExpirationTime, ExpiresInput.falsy,
      encryptSecretLayers, encryptWithSecretKey, encrypt_secret, hk, hpw,
      storeSecretWithMetadata]
  · simp [handleCreateSecret, hp, validateExpirationTime, ExpiresInput.falsy,
      encryptSecretLayers, encryptWithSecretKey, encrypt_secret, hk,
      storeSecretWithMetadata]

/-- C4 witness at concrete key, password and plaintext. -/
theorem claim_C4_witness :
    encryptSecretLayers (some "k") (SVal.plain "s") "" =
      Except.ok (encrypt_secret (SVal.plain "s") "k", "secret_key_encrypted") ∧
    encryptSecretLayers (some "k") (SVal.plain "s") "pw" =
      Except.ok (encrypt_secret (encrypt_secret (SVal.plain "s") "pw") "k",
        "secret_key_password_encrypted") ∧
    handleCreateSecret 0 (some "k") "s" "pw" ExpiresInput.noneI =
      (Resp.created none,
       some (Store.mk (some (SVal.enc (SVal.enc (SVal.plain "s") "pw") "k"))
         (some "secret_key_password_encrypted") none)) ∧
    handleCreateSecret 0 (some "k") "s" "" ExpiresInput.noneI =
      (Resp.created none,
       some (Store.mk (some (SVal.enc (SVal.plain "s") "k"))
         (some "secret_key_encrypted") none)) :=
  claim_C4_layer_composition 0 "k" "s" "pw" (SVal.plain "s")
    (by decide) (by decide) (by decide)

/-- C9: best-effort per-key deletion — `_delete_secret_and_metadata` on any
record whose payload key exists removes all three keys and succeeds whatever
the state of the metadata and expires keys (in particular when both are
absent), and a retrieve that triggers such a deletion on a record missing both
optional keys still succeeds. -/
theorem claim_C9_best_effort_delete (v : SVal) (m e : Option String) (now : Int)
    (sysKey : Option String) (isEnc : SVal → Bool) (uuid pw : String)
    (huuid : uuid ≠ "") (hne : isEnc v = false) :
    deleteSecretAndMetadata (Store.mk (some v) m e) =
      some (Store.mk none none none) ∧
    handleRetrieveSecret now sysKey isEnc uuid pw (Store.mk (some v) none none) =
      (Resp.retrieved v, Store.mk none none none) := by
  constructor
  · simp [deleteSecretAndMetadata]
  · simp [handleRetrieveSecret, huuid, checkExpiration, getEncryptionMetadata,
      decryptSecretLayers, hne, deleteSecretAndMetadata]

/-- C9 witness: deletion and the triggering retrieve succeed on a record with
no metadata and no expires key. -/
theorem claim_C9_witness :
    deleteSecretAndMetadata (Store.mk (some (SVal.plain "s")) none none) =
      some (Store.mk none none none) ∧
    handleRetrieveSecret 0 (some "k") (fun _ => false) "u" ""
        (Store.mk (some (SVal.plain "s")) none none) =
      (Resp.retrieved (SVal.plain "s"), Store.mk none none none) :=
  claim_C9_best_effort_delete (SVal.plain "s") none none 0 (some "k")
    (fun _ => false) "u" "" (by decide) rfl

/-- C10: an encoding tag outside the four recognized values is routed to the
heuristic fallback exactly like an absent tag — `_decrypt_secret_layers`
behaves identically on the unrecognized tag and on `None`, and
`_check_password_requirement` answers `is_encrypted payload` (and `false` when
the payload read fails). -/
theorem claim_C10_unrecognized_tag (sysKey : Option String) (isEnc : SVal → Bool)
    (v : SVal) (pw t : String) (e : Option String)
    (ht1 : t ≠ "secret_key_encrypted") (ht2 : t ≠ "secret_key_password_encrypted")
    (ht3 : t ≠ "encrypted") (ht4 : t ≠ "plaintext") :
    decryptSecretLayers sysKey isEnc v (some t) pw =
      decryptSecretLayers sysKey isEnc v none pw ∧
    checkPasswordRequirement isEnc (Store.mk (some v) (some t) e) = isEnc v ∧
    checkPasswordRequirement isEnc (Store.mk none (some t) e) = false ∧
    checkPasswordRequirement isEnc (Store.mk (some v) none e) = isEnc v := by
  refine ⟨?_, ?_, ?_, ?_⟩
  · simp [decryptSecretLayers, ht1, ht2, ht3, ht4]
  · simp [checkPasswordRequirement, getEncryptionMetadata, ht1, ht2, ht3, ht4,
      heuristicFallback]
  · simp [checkPasswordRequirement, getEncryptionMetadata, ht1, ht2, ht3, ht4,
      heuristicFallback]
  · simp [checkPasswordRequirement, getEncryptionMetadata, heuristicFallback]

/-- C10 witness at the unrecognized tag value `garbage`. -/
theorem claim_C10_witness :
    decryptSecretLayers (some "k") (fun _ => true) (SVal.plain "s")
        (some "garbage") "pw" =
      decryptSecretLayers (some "k") (fun _ => true) (SVal.plain "s") none "pw" ∧
    checkPasswordRequirement (fun _ => true)
        (Store.mk (some (SVal.plain "s")) (some "garbage") none) =
      (fun _ => true) (SVal.plain "s") ∧
    checkPasswordRequirement (fun _ => true)
        (Store.mk none (some "garbage") none) = false ∧
    checkPasswordRequirement (fun _ => true)
        (Store.mk (some (SVal.plain "s")) none none) =
      (fun _ => true) (SVal.plain "s") :=
  claim_C10_unrecognized_tag (some "k") (fun _ => true) (SVal.plain "s")
    "pw" "garbage" none (by decide) (by decide) (by decide) (by decide)

/-- C5: expiration helper — when the expires entry is absent or its value is
not an integer numeral, `_check_expiration` silently passes leaving the store
unchanged; when it parses to a representable instant at or before the current
instant (and the payload key exists, as the callers' existence check
guarantees), all three keys are deleted, a 410 `Expired` result carrying the
expiry instant is produced, and both `_handle_retrieve_secret` and
`_handle_check_secret` short-circuit with that result, performing no
decryption and no further mutation. -/
theorem claim_C5_expiration_helper (now : Int) (s : Store) (estr : String)
    (n : Int) (uuid pw : String) (sysKey : Option String) (isEnc : SVal → Bool)
    (huuid : uuid ≠ "") :
    (s.expires = none → checkExpiration now s = (none, s)) ∧
    (s.expires = some estr → parseInt estr = none →
      checkExpiration now s = (none, s)) ∧
    (s.expires = some estr → parseInt estr = some n → tsRepresentable n →
      n ≤ now → s.payload.isSome →
      checkExpiration now s = (some (Resp.expired n), Store.mk none none none) ∧
      (Resp.expired n).status = 410 ∧
      handleRetrieveSecret now sysKey isEnc uuid pw s =
        (Resp.expired n, Store.mk none none none) ∧
      handleCheckSecret now isEnc uuid s =
        (Resp.expired n, Store.mk none none none)) := by
  refine ⟨?_, ?_, ?_⟩
  · intro he
    simp [checkExpiration, he]
  · intro he hpi
    simp [checkExpiration, he, hpi]
  · intro he hpi hrep hle hpay
    obtain ⟨v, hv⟩ := Option.isSome_iff_exists.mp hpay
    have hce : checkExpiration now s =
        (some (Resp.expired n), Store.mk none none none) := by
      simp [checkExpiration, he, hpi, hrep, hle, deleteSecretAndMetadata, hv]
    refine ⟨hce, rfl, ?_, ?_⟩
    · simp [handleRetrieveSecret, huuid, hv, hce]
    · simp [handleCheckSecret, huuid, hv, hce]

/-- C5 witness: a record whose stored expiry `30` is at or before `now = 50`
is deleted and reported expired by both operations; an unparsable expiry
passes silently. -/
theorem claim_C5_witness :
    ((Store.mk (some (SVal.plain "s")) (some "plaintext") (some "30")).expires =
        some "30" → parseInt "30" = some 30 → tsRepresentable 30 →
      (30 : Int) ≤ 50 →
      (Store.mk (some (SVal.plain "s")) (some "plaintext") (some "30")).payload.isSome →
      checkExpiration 50 (Store.mk (some (SVal.plain "s")) (some "plaintext") (some "30")) =
        (some (Resp.expired 30), Store.mk none none none) ∧
      (Resp.expired 30).status = 410 ∧
      handleRetrieveSecret 50 (some "k") (fun _ => false) "u" ""
          (Store.mk (some (SVal.plain "s")) (some "plaintext") (some "30")) =
        (Resp.expired 30, Store.mk none none none) ∧
      handleCheckSecret 50 (fun _ => false) "u"
          (Store.mk (some (SVal.plain "s")) (some "plaintext") (some "30")) =
        (Resp.expired 30, Store.mk none none none)) ∧
    checkExpiration 50 (Store.mk (some (SVal.plain "s")) none (some "soon")) =
      (none, Store.mk (some (SVal.plain "s")) none (some "soon")) :=
  ⟨(claim_C5_expiration_helper 50
      (Store.mk (some (SVal.plain "s")) (some "plaintext") (some "30"))
      "30" 30 "u" "" (some "k") (fun _ => false) (by decide)).2.2,
   (claim_C5_expiration_helper 50
      (Store.mk (some (SVal.plain "s")) none (some "soon"))
      "soon" 0 "u" "" (some "k") (fun _ => false) (by decide)).2.1
     rfl (by decide)⟩

/-- C6 counterexample: the create event carries `expires_at = 0`, an integer
that parses and denotes the epoch instant, which is at or before the call
time `now = 1000000`; the claim demands a `ValidationError` with nothing
stored, yet create succeeds with status 201 and stores the secret (without an
expiry key), because `0` is falsy in Python and skips
`_validate_expiration_time` entirely. -/
theorem claim_C6_counterexample :
    handleCreateSecret 1000000 (some "k") "s" "" (ExpiresInput.intI 0) =
      (Resp.created none,
       some (Store.mk (some (SVal.enc (SVal.plain "s") "k"))
         (some "secret_key_encrypted") none)) ∧
    (ExpiresInput.intI 0).toInt = some 0 ∧ tsRepresentable 0 = true ∧
    (0 : Int) ≤ 1000000 ∧ (Resp.created none).status = 201 := by
  refine ⟨?_, rfl, rfl, by decide, rfl⟩
  simp [handleCreateSecret, validateExpirationTime, ExpiresInput.falsy,
    encryptSecretLayers, encryptWithSecretKey, encrypt_secret,
    storeSecretWithMetadata]

/-- The `datetime`-representable range sits inside the 64-bit `time_t`
range. -/
theorem fitsTimeT_of_tsRepresentable (n : Int) (h : tsRepresentable n) :
    fitsTimeT n := by
  simp only [tsRepresentable, Bool.and_eq_true, decide_eq_true_eq] at h
  simp only [fitsTimeT, Bool.and_eq_true, decide_eq_true_eq]
  omega

/-- C6 amended: for every create call in which `expires_at` is given and
truthy (a nonzero integer or a nonempty string), create fails and stores no
secret whenever the value is out of order: not parseable as an integer, or
out of the `datetime`-representable range while fitting a 64-bit `time_t`
(the raised `ValueError`/`OSError` is caught), either way a 400
`ValidationError`; an instant not strictly in the future of call time, also a
400 `ValidationError`; or beyond 64-bit `time_t`, where `fromtimestamp`
raises `OverflowError`, which the clause
`except (ValueError, TypeError, OSError)` does not catch, surfacing as the
top-level 500 response rather than a `ValidationError`.  A falsy `expires_at`
(`0`, `""`, absent) bypasses validation and the secret is stored without an
expiry key. -/
theorem claim_C6_amended (now : Int) (sysKey : Option String) (p pw : String)
    (e : ExpiresInput) (n : Int) (hp : p ≠ "") (hf : e.falsy = false) :
    (e.toInt = none →
      handleCreateSecret now sysKey p pw e = (Resp.invalidExpiresAt, none) ∧
      Resp.invalidExpiresAt.status = 400) ∧
    (e.toInt = some n → fitsTimeT n → tsRepresentable n = false →
      handleCreateSecret now sysKey p pw e = (Resp.invalidExpiresAt, none) ∧
      Resp.invalidExpiresAt.status = 400) ∧
    (e.toInt = some n → fitsTimeT n = false →
      handleCreateSecret now sysKey p pw e = (Resp.unhandledOverflow, none) ∧
      Resp.unhandledOverflow.status = 500) ∧
    (e.toInt = some n → tsRepresentable n → n ≤ now →
      handleCreateSecret now sysKey p pw e = (Resp.expiresNotFuture, none) ∧
      Resp.expiresNotFuture.status = 400) := by
  refine ⟨?_, ?_, ?_, ?_⟩
  · intro hti
    exact ⟨by simp [handleCreateSecret, hp, validateExpirationTime, hf, hti], rfl⟩
  · intro hti hft hrep
    exact ⟨by simp [handleCreateSecret, hp, validateExpirationTime, hf, hti,
      hft, hrep], rfl⟩
  · intro hti hft
    exact ⟨by simp [handleCreateSecret, hp, validateExpirationTime, hf, hti,
      hft], rfl⟩
  · intro hti hrep hn
    have hft := fitsTimeT_of_tsRepresentable n hrep
    exact ⟨by simp [handleCreateSecret, hp, validateExpirationTime, hf, hti,
      hft, hrep, hn], rfl⟩

/-- C6 amended witness: `expires_at` of ten to the nineteenth exceeds 64-bit
`time_t`, so create surfaces the uncaught-`OverflowError` 500 and stores
nothing. -/
theorem claim_C6_witness :
    handleCreateSecret 0 (some "k") "s" ""
        (ExpiresInput.strI "10000000000000000000") =
      (Resp.unhandledOverflow, none) ∧
    Resp.unhandledOverflow.status = 500 :=
  (claim_C6_amended 0 (some "k") "s" ""
      (ExpiresInput.strI "10000000000000000000") 10000000000000000000
      (by decide) (by decide)).2.2.1 (by decide) (by decide)

/-- C7 counterexample: a record tagged `secret_key_encrypted` whose payload
was not encrypted under the available system key `k`.  The system key is
present, the system-layer integrity check fails after decrypt
(`decryptWithSecretKey` yields `none`), and the claim demands the
400-equivalent `DecryptionError`; but the code answers the 500-equivalent
system-decryption error, because `_decrypt_secret_layers` wraps
`_decrypt_with_secret_key` in a bare `except Exception` that cannot separate
a missing key from an integrity failure. -/
theorem claim_C7_counterexample :
    decryptWithSecretKey (some "k") (SVal.enc (SVal.plain "x") "j") = none ∧
    decryptSecretLayers (some "k") (fun _ => false)
        (SVal.enc (SVal.plain "x") "j") (some "secret_key_encrypted") "" =
      Except.error Resp.systemDecryptionFailed ∧
    Resp.systemDecryptionFailed.status = 500 ∧
    decryptSecretLayers (some "k") (fun _ => false)
        (SVal.enc (SVal.plain "x") "j") (some "secret_key_encrypted") "" ≠
      Except.error Resp.decryptionFailed ∧
    handleRetrieveSecret 0 (some "k") (fun _ => false) "u" ""
        (Store.mk (some (SVal.enc (SVal.plain "x") "j"))
          (some "secret_key_encrypted") none) =
      (Resp.systemDecryptionFailed,
       Store.mk (some (SVal.enc (SVal.plain "x") "j"))
         (some "secret_key_encrypted") none) := by
  refine ⟨by decide, ?_, rfl, ?_, ?_⟩
  · simp [decryptSecretLayers, decryptWithSecretKey, decrypt_secret]
  · simp [decryptSecretLayers, decryptWithSecretKey, decrypt_secret]
  · simp [handleRetrieveSecret, checkExpiration, getEncryptionMetadata,
      decryptSecretLayers, decryptWithSecretKey, decrypt_secret]

/-- C7 amended: for every non-expired record tagged `secret_key_encrypted` or
`secret_key_password_encrypted`, any failure while removing the system-key
layer — the key being unavailable in the environment as well as the
integrity check failing after decrypt — makes retrieve answer the
500-equivalent system-decryption error, and the record is not deleted. -/
theorem claim_C7_amended (now : Int) (sysKey : Option String)
    (isEnc : SVal → Bool) (uuid pw : String) (st : Store) (v : SVal)
    (t : String) (huuid : uuid ≠ "") (hpay : st.payload = some v)
    (hmeta : st.metadata = some t)
    (htag : t = "secret_key_encrypted" ∨ t = "secret_key_password_encrypted")
    (hnx : (checkExpiration now st).1 = none)
    (hfail : decryptWithSecretKey sysKey v = none) :
    handleRetrieveSecret now sysKey isEnc uuid pw st =
      (Resp.systemDecryptionFailed, st) ∧
    Resp.systemDecryptionFailed.status = 500 := by
  have hce := checkExpiration_of_fst_none now st hnx
  refine ⟨?_, rfl⟩
  rcases htag with ht | ht <;>
    simp [handleRetrieveSecret, huuid, hpay, hce, getEncryptionMetadata, hmeta,
      ht, decryptSecretLayers, hfail]

/-- C7 amended witness: with the system key entirely absent the same 500
system-decryption error is produced and the record survives. -/
theorem claim_C7_witness :
    handleRetrieveSecret 0 none (fun _ => false) "u" ""
        (Store.mk (some (SVal.enc (SVal.plain "x") "k"))
          (some "secret_key_encrypted") none) =
      (Resp.systemDecryptionFailed,
       Store.mk (some (SVal.enc (SVal.plain "x") "k"))
         (some "secret_key_encrypted") none) ∧
    Resp.systemDecryptionFailed.status = 500 :=
  claim_C7_amended 0 none (fun _ => false) "u" ""
    (Store.mk (some (SVal.enc (SVal.plain "x") "k"))
      (some "secret_key_encrypted") none)
    (SVal.enc (SVal.plain "x") "k") "secret_key_encrypted"
    (by decide) rfl rfl (Or.inl rfl) rfl rfl

/-- C8: check password reporting — on an existing, non-expired handle, check
answers 200 with the store untouched (no decryption, no deletion), and
`requires_password` is `true` exactly when the stored tag names a password
layer (`encrypted`, the spec's `legacy_password_only`, or
`secret_key_password_encrypted`, the spec's `system_and_password`), `false`
for the system-only and legacy-plaintext tags, and the `is_encrypted`
heuristic on the raw payload when the tag is absent. -/
theorem claim_C8_check_reporting (now : Int) (isEnc : SVal → Bool)
    (uuid : String) (st : Store) (v : SVal)
    (huuid : uuid ≠ "") (hpay : st.payload = some v)
    (hnx : (checkExpiration now st).1 = none) :
    (∃ ea, handleCheckSecret now isEnc uuid st =
      (Resp.checked (checkPasswordRequirement isEnc st) ea, st) ∧
      (Resp.checked (checkPasswordRequirement isEnc st) ea).status = 200) ∧
    ((st.metadata = some "encrypted" ∨
        st.metadata = some "secret_key_password_encrypted") →
      checkPasswordRequirement isEnc st = true) ∧
    ((st.metadata = some "plaintext" ∨
        st.metadata = some "secret_key_encrypted") →
      checkPasswordRequirement isEnc st = false) ∧
    (st.metadata = none → checkPasswordRequirement isEnc st = isEnc v) := by
  have hce := checkExpiration_of_fst_none now st hnx
  refine ⟨?_, ?_, ?_, ?_⟩
  · have h : handleCheckSecret now isEnc uuid st =
        (Resp.checked (checkPasswordRequirement isEnc st)
          (match getExpirationInfo st with
           | some n => if n = 0 then none else some n
           | none => none), st) := by
      simp [handleCheckSecret, huuid, hpay, hce]
    exact ⟨_, h, rfl⟩
  · intro hm
    rcases hm with hm | hm <;> simp [checkPasswordRequirement, getEncryptionMetadata, hm]
  · intro hm
    rcases hm with hm | hm <;> simp [checkPasswordRequirement, getEncryptionMetadata, hm]
  · intro hm
    simp [checkPasswordRequirement, getEncryptionMetadata, hm,
      heuristicFallback, hpay]

/-- C8 witness: an untagged record with a future expiry reports the heuristic
verdict and is left untouched. -/
theorem claim_C8_witness :
    (∃ ea, handleCheckSecret 0 (fun _ => true) "u"
        (Store.mk (some (SVal.plain "s")) none (some "900")) =
      (Resp.checked (checkPasswordRequirement (fun _ => true)
          (Store.mk (some (SVal.plain "s")) none (some "900"))) ea,
        Store.mk (some (SVal.plain "s")) none (some "900")) ∧
      (Resp.checked (checkPasswordRequirement (fun _ => true)
          (Store.mk (some (SVal.plain "s")) none (some "900"))) ea).status = 200) ∧
    ((Store.mk (some (SVal.plain "s")) none (some "900")).metadata = some "encrypted" ∨
      (Store.mk (some (SVal.plain "s")) none (some "900")).metadata =
        some "secret_key_password_encrypted" →
      checkPasswordRequirement (fun _ => true)
        (Store.mk (some (SVal.plain "s")) none (some "900")) = true) ∧
    ((Store.mk (some (SVal.plain "s")) none (some "900")).metadata = some "plaintext" ∨
      (Store.mk (some (SVal.plain "s")) none (some "900")).metadata =
        some "secret_key_encrypted" →
      checkPasswordRequirement (fun _ => true)
        (Store.mk (some (SVal.plain "s")) none (some "900")) = false) ∧
    ((Store.mk (some (SVal.plain "s")) none (some "900")).metadata = none →
      checkPasswordRequirement (fun _ => true)
        (Store.mk (some (SVal.plain "s")) none (some "900")) =
      (fun _ => true) (SVal.plain "s")) :=
  claim_C8_check_reporting 0 (fun _ => true) "u"
    (Store.mk (some (SVal.plain "s")) none (some "900")) (SVal.plain "s")
    (by decide) rfl (by decide)

end SecretsLambda
